import Mathlib

/-
Verification of the UM6 inertial/GPS driver (src/src/main.cpp) against its
natural-language specification.  The driver is shallowly embedded: each
transport operation issued by the configuration sequencer and the command
dispatcher is recorded in an explicit trace, and the per-trigger publish
step is a pure function from the register snapshot to a record of
optionally-published messages.
-/

namespace Um6

/-- Operations the configuration sequencer (configureSensor, main.cpp lines
133-212) can issue on the register transport, in the order the source can
issue them: the communication register write (line 161), the misc-config
register write (line 188), the zero-gyros command (line 198), and the six
optional 3-component vector writes (lines 201-211). Register payloads other
than the communication register are elided; no claim concerns them. -/
inductive COp where
  | writeComm
  | writeMisc
  | cmdZeroGyros
  | writeMagRef
  | writeAccelRef
  | writeMagBias
  | writeAccelBias
  | writeGyroBias
  | writeGpsHome
deriving DecidableEq, Fintype

/-- Commands the reset-service dispatcher (handleResetService, main.cpp
lines 215-224) can issue, in source order. -/
inductive RCmd where
  | zeroGyros
  | resetEkf
  | setMagRef
  | setAccelRef
deriving DecidableEq, Fintype

/-- Result of running a sequence of transport operations: either normal
completion or an abort by a thrown exception (std::runtime_error message).
Either way the list of operations actually issued on the transport up to
that point is kept, so aborted runs can be inspected. -/
inductive TraceResult (ω : Type) (α : Type) where
  | ok (val : α) (trace : List ω)
  | err (msg : String) (trace : List ω)
deriving DecidableEq

/-- Operations issued on the transport, whether or not the run aborted. -/
def TraceResult.trace : TraceResult ω α → List ω
  | .ok _ t => t
  | .err _ t => t

/-- True when the run aborted with an exception. -/
def TraceResult.isErr : TraceResult ω α → Bool
  | .ok _ _ => false
  | .err _ _ => true

/-- Sequencing: C++ straight-line code after a statement runs only when the
statement did not throw; a thrown exception propagates, keeping the trace. -/
def TraceResult.andThen : TraceResult ω α → (α → List ω → TraceResult ω β) → TraceResult ω β
  | .ok a t, f => f a t
  | .err m t, _ => .err m t

/-- Issue one operation and report the acknowledgment outcome (true means
the ack was received), as sensor->sendWaitAck does. The environment is
modelled by the function ack. -/
def sendWaitAckStep (ack : ω → Bool) (op : ω) (t : List ω) : TraceResult ω Bool :=
  .ok (ack op) (t ++ [op])

/-- From main.cpp lines 92-100 (sendCommand): issue the command register and
throw "Command to device failed." when the acknowledgment is NOT received. -/
def sendCommand (ack : ω → Bool) (op : ω) (t : List ω) : TraceResult ω Unit :=
  if ack op then .ok () (t ++ [op])
  else .err "Command to device failed." (t ++ [op])

/-- From main.cpp lines 61-86 (configureVector3): when the named parameter
is present, write the three scaled components and call sendWaitAck. The
source (line 81) throws "Unable to configure vector." when sendWaitAck
returns TRUE, i.e. when the acknowledgment WAS received, and falls through
to normal completion when it was not; this is the opposite polarity of
every other sendWaitAck call site in the file (lines 96, 161, 188). The
translation reproduces the source as written. When the parameter is absent
the register is silently skipped. The length-3 guard of lines 65-68 always
passes for the registers used and is omitted. -/
def configureVector3 (ack : COp → Bool) (present : Bool) (op : COp) (t : List COp) :
    TraceResult COp Unit :=
  if present then
    if ack op then .err "Unable to configure vector." (t ++ [op])
    else .ok () (t ++ [op])
  else .ok () t

/-- From main.cpp lines 102-127 (baudValueToBitSetting): translate a baud
value to its 3-bit register code; any unsupported value throws
"Invalid Baud Rate". -/
def baudValueToBitSetting (baud_rate : Int) : Except String Nat :=
  if baud_rate = 9600 then .ok 0
  else if baud_rate = 14400 then .ok 1
  else if baud_rate = 19200 then .ok 2
  else if baud_rate = 38400 then .ok 3
  else if baud_rate = 57600 then .ok 4
  else if baud_rate = 115200 then .ok 5
  else .error "Invalid Baud Rate"

/-- The baud values the device accepts (cases of the switch in
baudValueToBitSetting). -/
def supportedBauds : List Int := [9600, 14400, 19200, 38400, 57600, 115200]

/-- Contents of the communication-enable bitmask built at main.cpp lines
140-158. The always-on output flags and the numeric bit positions
(UM6_BAUD_START_BIT, UM6_GPS_BAUD_START_BIT) come from um6/registers.h,
which only declares fixed constants; the structure records symbolically
what the source places in each field: sensorBaudField is the 3-bit code
shifted to the sensor-baud position, gpsBaudField the code shifted to the
GPS-baud position, and gpsChannelFlags whether the five GPS channel enable
flags were ORed in. -/
structure CommRegContrib where
  sensorBaudField : Nat
  gpsBaudField : Nat
  gpsChannelFlags : Bool
deriving DecidableEq

/-- From main.cpp lines 137-158: the communication register value. Line 143
passes the literal 115200 to baudValueToBitSetting for the sensor-baud
field; line 144 passes the gps_baud parameter (default 9600). Either
translation may throw, which happens before any register write. -/
def buildCommReg (gps_baud : Int) (gps_enable : Bool) : Except String CommRegContrib :=
  match baudValueToBitSetting 115200 with
  | .error m => .error m
  | .ok sb =>
    match baudValueToBitSetting gps_baud with
    | .error m => .error m
    | .ok gb => .ok ⟨sb, gb, gps_enable⟩

/-- Contents of the misc-config register built at main.cpp lines 166-187:
UM6_QUAT_ESTIMATE_ENABLED always, plus the two optional update flags. -/
structure MiscConfigContrib where
  mag_update_enabled : Bool
  accel_update_enabled : Bool
deriving DecidableEq

/-- From main.cpp lines 167-187: the misc-config register value. -/
def buildMiscConfig (mag_updates accel_updates : Bool) : MiscConfigContrib :=
  ⟨mag_updates, accel_updates⟩

/-- Parameters read by configureSensor (main.cpp lines 133-212) from the
parameter server. Presence flags model ros::param::has for the six optional
vector groups; the three-component values themselves are elided since only
presence decides whether the write is issued. Defaults as in the source:
gps_baud 9600, gps_enable false, mag_updates true, accel_updates true,
zero_gyros true, all vector groups absent. -/
structure ConfigParams where
  gps_baud : Int
  gps_enable : Bool
  mag_updates : Bool
  accel_updates : Bool
  zero_gyros : Bool
  mag_ref_present : Bool
  accel_ref_present : Bool
  mag_bias_present : Bool
  accel_bias_present : Bool
  gyro_bias_present : Bool
  gps_home_present : Bool
deriving DecidableEq

/-- The parameter-server defaults of configureSensor, with every optional
parameter left unset. -/
def defaultConfigParams : ConfigParams :=
  { gps_baud := 9600
  , gps_enable := false
  , mag_updates := true
  , accel_updates := true
  , zero_gyros := true
  , mag_ref_present := false
  , accel_ref_present := false
  , mag_bias_present := false
  , accel_bias_present := false
  , gyro_bias_present := false
  , gps_home_present := false }

/-- From main.cpp lines 133-212 (configureSensor): the configuration
sequence executed once per fresh connection. Step order as in the source:
build the communication bitmask (this can throw "Invalid Baud Rate" before
any write, lines 140-144), write the communication register and throw on a
missing ack (lines 160-164), write the misc-config register and throw on a
missing ack (lines 187-191), issue the zero-gyros command when the
zero_gyros parameter is true (line 198), then the five optional vector
writes (lines 201-206), then the GPS-home vector write when GPS is enabled
(lines 208-211). Vector steps use configureVector3 with its source-level
ack polarity. -/
def configureSensor (p : ConfigParams) (ack : COp → Bool) : TraceResult COp Unit :=
  match buildCommReg p.gps_baud p.gps_enable with
  | .error m => .err m []
  | .ok _ =>
    (sendWaitAckStep ack .writeComm []).andThen fun r1 t =>
    if !r1 then .err "Unable to set communication register." t
    else
      (sendWaitAckStep ack .writeMisc t).andThen fun r2 t =>
      if !r2 then .err "Unable to set misc config register." t
      else
        ((if p.zero_gyros then sendCommand ack .cmdZeroGyros t else .ok () t)).andThen fun _ t =>
        (configureVector3 ack p.mag_ref_present .writeMagRef t).andThen fun _ t =>
        (configureVector3 ack p.accel_ref_present .writeAccelRef t).andThen fun _ t =>
        (configureVector3 ack p.mag_bias_present .writeMagBias t).andThen fun _ t =>
        (configureVector3 ack p.accel_bias_present .writeAccelBias t).andThen fun _ t =>
        (configureVector3 ack p.gyro_bias_present .writeGyroBias t).andThen fun _ t =>
        if p.gps_enable then configureVector3 ack p.gps_home_present .writeGpsHome t
        else .ok () t

/-- True when the operation is a command (as opposed to a register write). -/
def COp.isCommand : COp → Bool
  | .cmdZeroGyros => true
  | _ => false

/-- True when the operation is a register write. -/
def COp.isWrite (op : COp) : Bool := !op.isCommand

/-- The reset service request (um6/Reset.srv): four independent flags. -/
structure ResetRequest where
  zero_gyros : Bool
  reset_ekf : Bool
  set_mag_ref : Bool
  set_accel_ref : Bool
deriving DecidableEq, Fintype

/-- From main.cpp lines 215-224 (handleResetService): issue, in fixed
order, only the commands whose flag is set, via sendCommand (which throws
on a missing acknowledgment, so a failure aborts the remaining flags and
propagates out of the handler); return true when every issued command was
acknowledged. -/
def handleResetService (ack : RCmd → Bool) (req : ResetRequest) : TraceResult RCmd Bool :=
  ((if req.zero_gyros then sendCommand ack .zeroGyros [] else .ok () [])).andThen fun _ t =>
  ((if req.reset_ekf then sendCommand ack .resetEkf t else .ok () t)).andThen fun _ t =>
  ((if req.set_mag_ref then sendCommand ack .setMagRef t else .ok () t)).andThen fun _ t =>
  ((if req.set_accel_ref then sendCommand ack .setAccelRef t else .ok () t)).andThen fun _ t =>
  .ok true t

/-- Whether a reset command is requested by the given flags. -/
def flaggedCmd (req : ResetRequest) : RCmd → Bool
  | .zeroGyros => req.zero_gyros
  | .resetEkf => req.reset_ekf
  | .setMagRef => req.set_mag_ref
  | .setAccelRef => req.set_accel_ref

/-- Position of each reset command in the fixed dispatch order of
handleResetService. -/
def rIndex : RCmd → Nat
  | .zeroGyros => 0
  | .resetEkf => 1
  | .setMagRef => 2
  | .setAccelRef => 3

/-- Effect of one reset request on the streaming session, from main.cpp
lines 453-478: the service callback runs during ros::spinOnce (line 468)
inside the try block of main, and handleResetService does not catch the
exception thrown by sendCommand, so a failed acknowledgment propagates to
the catch at lines 472-478, which closes the serial port if open, logs the
error, and sleeps one second before the outer loop reconnects. A fully
acknowledged (or empty) request returns true to the caller and streaming
continues. -/
structure SessionEffect where
  serialClosed : Bool
  reconnectScheduled : Bool
  remainsStreaming : Bool
deriving DecidableEq

/-- Outcome of servicing one reset request while streaming (main.cpp lines
461-478). -/
def processResetDuringStreaming (ack : RCmd → Bool) (req : ResetRequest) : SessionEffect :=
  match handleResetService ack req with
  | .ok _ _ => ⟨false, false, true⟩
  | .err _ _ => ⟨true, true, false⟩

/-- Bit layout of the packed GPS status register, from um6/registers.h
(UM6_GPS_MODE_START_BIT / MASK, UM6_GPS_HDOP_START_BIT / MASK,
UM6_GPS_VDOP_START_BIT / MASK, UM6_GPS_SAT_COUNT_START_BIT / MASK). The
header only declares these fixed constants, so the layout is kept abstract;
every theorem below holds for every layout. -/
structure GpsStatusLayout where
  modeStart : Nat
  modeMask : Nat
  hdopStart : Nat
  hdopMask : Nat
  vdopStart : Nat
  vdopMask : Nat
  satCountStart : Nat
  satCountMask : Nat

/-- The register snapshot read by publishMsgs (um6::Registers). Indexed
fields model the get_scaled accessors; the scaled values are modelled as
integers, which is faithful for the publish transforms since they only
permute and negate components. gps_status is the raw packed register value
read by the get accessor. -/
structure Registers where
  quat : Nat → Int
  covariance : Nat → Int
  gyro : Nat → Int
  accel : Nat → Int
  mag : Nat → Int
  euler : Nat → Int
  temperature : Int
  gps_status : Nat
  gps_abs : Nat → Int
  gps_rel : Nat → Int
  gps_course_speed : Nat → Int

/-- Subscriber counts of the output topics (getNumSubscribers). -/
structure Subs where
  imu : Nat
  mag : Nat
  rpy : Nat
  temperature : Nat
  gps_status : Nat
  gps_abs : Nat
  gps_rel : Nat
  gps_dop : Nat
  gps_num_sat : Nat

/-- The IMU message assembled at main.cpp lines 240-271: orientation in
output order (x, y, z, w), the 3x3 orientation-covariance block, angular
velocity and linear acceleration. -/
structure ImuMsg where
  orientation : Int × Int × Int × Int
  orientation_covariance : List Int
  angular_velocity : Int × Int × Int
  linear_acceleration : Int × Int × Int

/-- Quaternion remap of main.cpp lines 244-247: raw order (w, x, y, z) in
NED becomes output (x, y, z, w) in ENU. -/
def quatRemap (q : Nat → Int) : Int × Int × Int × Int :=
  (q 2, q 1, -(q 3), q 0)

/-- NED to ENU remap of a raw 3-vector, as applied at main.cpp lines
262-264 (gyro), 267-269 (accel), 278-280 (mag) and 288-290 (euler). -/
def vecRemap (v : Nat → Int) : Int × Int × Int :=
  (v 1, v 0, -(v 2))

/-- The 3x3 block over (x, y, z) of the raw 4x4 covariance, at raw indices
5, 6, 7, 9, 10, 11, 13, 14, 15 (main.cpp lines 251-259). -/
def covBlock (c : Nat → Int) : List Int :=
  [c 5, c 6, c 7, c 9, c 10, c 11, c 13, c 14, c 15]

/-- GPS fix mode extracted from the status register (main.cpp line 314). -/
def gpsModeOf (L : GpsStatusLayout) (r : Registers) : Nat :=
  (r.gps_status >>> L.modeStart) &&& L.modeMask

/-- Horizontal dilution of precision extracted from the status register
(main.cpp lines 342 and 374). -/
def hdopOf (L : GpsStatusLayout) (r : Registers) : Nat :=
  (r.gps_status >>> L.hdopStart) &&& L.hdopMask

/-- Vertical dilution of precision extracted from the status register
(main.cpp lines 343 and 375). -/
def vdopOf (L : GpsStatusLayout) (r : Registers) : Nat :=
  (r.gps_status >>> L.vdopStart) &&& L.vdopMask

/-- Satellite count extracted from the status register (main.cpp line
352). -/
def gpsSatCountOf (L : GpsStatusLayout) (r : Registers) : Nat :=
  (r.gps_status >>> L.satCountStart) &&& L.satCountMask

/-- The dilution-of-precision message assembled at main.cpp lines 340-346
when the DOP topic has a subscriber: x and y both carry hdop, z carries
vdop. The enclosing block ends at line 347 without passing this message to
gps_dop_pub.publish, unlike every sibling block, so it is dropped. -/
def gpsDopMsgBuilt (L : GpsStatusLayout) (r : Registers) : Nat × Nat × Nat :=
  (hdopOf L r, hdopOf L r, vdopOf L r)

/-- Messages actually published by one invocation of publishMsgs: none for
a topic whose publish call did not run. gps_odom payload is elided (no
claim concerns it; it involves floating-point trigonometry). -/
structure PubOutput where
  imu : Option ImuMsg
  mag : Option (Int × Int × Int)
  rpy : Option (Int × Int × Int)
  temperature : Option Int
  gps_status : Option Nat
  gps_abs : Option (Int × Int × Int)
  gps_rel : Option (Int × Int × Int)
  gps_dop : Option (Nat × Nat × Nat)
  gps_num_sat : Option Nat
  gps_odom : Option Unit

/-- From main.cpp lines 230-412 (publishMsgs): invoked once per arrival of
the trigger register. Each topic publishes only when it has at least one
subscriber; the GPS topics additionally require the gps_enable parameter,
and the odometry topic requires the gps_odom topic parameter to be set.
The gps_dop field is none unconditionally: the source constructs
gps_dop_msg (lines 340-346, see gpsDopMsgBuilt) but the block contains no
publish call. -/
def publishMsgs (L : GpsStatusLayout) (r : Registers) (s : Subs)
    (gps_enable : Bool) (gps_odom_present : Bool) : PubOutput :=
  { imu := if 0 < s.imu then
      some { orientation := quatRemap r.quat
           , orientation_covariance := covBlock r.covariance
           , angular_velocity := vecRemap r.gyro
           , linear_acceleration := vecRemap r.accel }
    else none
  , mag := if 0 < s.mag then some (vecRemap r.mag) else none
  , rpy := if 0 < s.rpy then some (vecRemap r.euler) else none
  , temperature := if 0 < s.temperature then some r.temperature else none
  , gps_status :=
      if gps_enable then
        (if 0 < s.gps_status then some (gpsModeOf L r) else none)
      else none
  , gps_abs :=
      if gps_enable then
        (if 0 < s.gps_abs then some (r.gps_abs 0, r.gps_abs 1, r.gps_abs 2) else none)
      else none
  , gps_rel :=
      if gps_enable then
        (if 0 < s.gps_rel then some (r.gps_rel 0, r.gps_rel 1, r.gps_rel 2) else none)
      else none
  , gps_dop := none
  , gps_num_sat :=
      if gps_enable then
        (if 0 < s.gps_num_sat then some (gpsSatCountOf L r) else none)
      else none
  , gps_odom :=
      if gps_enable then (if gps_odom_present then some () else none) else none }

/-- An environment in which every acknowledgment is received. -/
def ackTrue : COp → Bool := fun _ => true

/-- An environment in which the acknowledgments of the two reference-vector
writes are not received and every other acknowledgment is. -/
def ackVecFail : COp → Bool
  | .writeMagRef => false
  | .writeAccelRef => false
  | _ => true

/-- An environment in which only the magnetic-reference write is not
acknowledged. -/
def ackMagRefFail : COp → Bool
  | .writeMagRef => false
  | _ => true

/-- Default parameters plus the magnetic-reference and
accelerometer-reference vector groups present. -/
def pVectors : ConfigParams :=
  { defaultConfigParams with mag_ref_present := true, accel_ref_present := true }

/-- GPS enabled and all six optional vector groups present; zero-gyros at
its default of true. -/
def pAllGps : ConfigParams :=
  { gps_baud := 9600
  , gps_enable := true
  , mag_updates := true
  , accel_updates := true
  , zero_gyros := true
  , mag_ref_present := true
  , accel_ref_present := true
  , mag_bias_present := true
  , accel_bias_present := true
  , gyro_bias_present := true
  , gps_home_present := true }

/-- Default parameters with an unsupported GPS baud value. -/
def pBadBaud : ConfigParams := { defaultConfigParams with gps_baud := 1234 }

/-- A concrete status-register layout used to instantiate theorems. -/
def sampleLayout : GpsStatusLayout := ⟨0, 3, 2, 1023, 12, 1023, 22, 15⟩

/-- A concrete register snapshot used to instantiate theorems; the raw
gyro vector is (1, 2, 3). -/
def sampleRegisters : Registers :=
  { quat := fun i => Int.ofNat i + 10
  , covariance := fun i => Int.ofNat i
  , gyro := fun i => Int.ofNat i + 1
  , accel := fun i => Int.ofNat i + 4
  , mag := fun i => Int.ofNat i + 7
  , euler := fun i => Int.ofNat i + 2
  , temperature := 25
  , gps_status := 0
  , gps_abs := fun _ => 0
  , gps_rel := fun _ => 0
  , gps_course_speed := fun _ => 0 }

/-- One subscriber on every topic. -/
def sampleSubs : Subs := ⟨1, 1, 1, 1, 1, 1, 1, 1, 1⟩

theorem bvbs_115200 : baudValueToBitSetting 115200 = Except.ok 5 := by
  simp [baudValueToBitSetting]

theorem bvbs_unsupported (b : Int) (hb : b ∉ supportedBauds) :
    baudValueToBitSetting b = Except.error "Invalid Baud Rate" := by
  simp only [supportedBauds, List.mem_cons, List.not_mem_nil, or_false] at hb
  push_neg at hb
  obtain ⟨h1, h2, h3, h4, h5, h6⟩ := hb
  simp [baudValueToBitSetting, h1, h2, h3, h4, h5, h6]

/-- C7: the baud translation maps the six supported values bijectively onto
the codes 0 to 5, any other value raises the configuration error, and a
configuration run whose GPS baud parameter is unsupported aborts before a
single operation is issued on the transport. -/
theorem C7_baud_translation_bijection :
    (supportedBauds.map baudValueToBitSetting
      = [Except.ok 0, Except.ok 1, Except.ok 2, Except.ok 3, Except.ok 4, Except.ok 5])
    ∧ (∀ b : Int, b ∉ supportedBauds →
        baudValueToBitSetting b = Except.error "Invalid Baud Rate")
    ∧ (∀ (p : ConfigParams) (ack : COp → Bool), p.gps_baud ∉ supportedBauds →
        (configureSensor p ack).trace = [] ∧ (configureSensor p ack).isErr = true) := by
  refine ⟨by simp [supportedBauds, baudValueToBitSetting], bvbs_unsupported, ?_⟩
  intro p ack hb
  have h := bvbs_unsupported p.gps_baud hb
  constructor <;>
    simp [configureSensor, buildCommReg, bvbs_115200, h, TraceResult.trace, TraceResult.isErr]

/-- C7 witness: the unsupported value 1234 is rejected and a run configured
with it issues no operation. -/
theorem C7_baud_translation_bijection_witness :
    ((1234 : Int) ∉ supportedBauds)
    ∧ baudValueToBitSetting 1234 = Except.error "Invalid Baud Rate"
    ∧ (configureSensor pBadBaud ackTrue).trace = [] :=
  ⟨by decide, C7_baud_translation_bijection.2.1 1234 (by decide),
    (C7_baud_translation_bijection.2.2 pBadBaud ackTrue (by decide)).1⟩

/-- C8: whenever the IMU topic has a subscriber, the published orientation
is (raw[2], raw[1], -raw[3], raw[0]) in output order (x, y, z, w); the raw
identity quaternion maps to the output identity (0, 0, 0, 1). -/
theorem C8_quaternion_remap :
    (∀ (L : GpsStatusLayout) (r : Registers) (s : Subs) (ge op : Bool), 0 < s.imu →
        (publishMsgs L r s ge op).imu.map ImuMsg.orientation
          = some (r.quat 2, r.quat 1, -(r.quat 3), r.quat 0))
    ∧ quatRemap (fun i => if i = 0 then 1 else 0) = (0, 0, 0, 1) := by
  constructor
  · intro L r s ge op h
    simp [publishMsgs, h, quatRemap]
  · decide

/-- C8 witness: at the sample snapshot with a subscribed IMU topic, the raw
quaternion (10, 11, 12, 13) is published as (12, 11, -13, 10). -/
theorem C8_quaternion_remap_witness :
    0 < sampleSubs.imu
    ∧ (publishMsgs sampleLayout sampleRegisters sampleSubs false false).imu.map
        ImuMsg.orientation = some (12, 11, -13, 10) :=
  ⟨by decide,
    (C8_quaternion_remap.1 sampleLayout sampleRegisters sampleSubs false false
      (by decide)).trans (by decide)⟩

/-- C9: angular velocity, linear acceleration, magnetic field and
roll-pitch-yaw all apply the identical remap (raw[1], raw[0], -raw[2]);
raw (1, 2, 3) maps to (2, 1, -3). -/
theorem C9_vector_remap :
    (∀ (L : GpsStatusLayout) (r : Registers) (s : Subs) (ge op : Bool), 0 < s.imu →
        (publishMsgs L r s ge op).imu.map ImuMsg.angular_velocity
            = some (r.gyro 1, r.gyro 0, -(r.gyro 2))
        ∧ (publishMsgs L r s ge op).imu.map ImuMsg.linear_acceleration
            = some (r.accel 1, r.accel 0, -(r.accel 2)))
    ∧ (∀ (L : GpsStatusLayout) (r : Registers) (s : Subs) (ge op : Bool), 0 < s.mag →
        (publishMsgs L r s ge op).mag = some (r.mag 1, r.mag 0, -(r.mag 2)))
    ∧ (∀ (L : GpsStatusLayout) (r : Registers) (s : Subs) (ge op : Bool), 0 < s.rpy →
        (publishMsgs L r s ge op).rpy = some (r.euler 1, r.euler 0, -(r.euler 2)))
    ∧ vecRemap (fun i => Int.ofNat i + 1) = (2, 1, -3) := by
  refine ⟨?_, ?_, ?_, by decide⟩ <;> intro L r s ge op h <;>
    simp [publishMsgs, h, vecRemap]

/-- C9 witness: at the sample snapshot the raw gyro vector (1, 2, 3) is
published as (2, 1, -3), and the magnetic and roll-pitch-yaw outputs apply
the same remap to their raw vectors. -/
theorem C9_vector_remap_witness :
    0 < sampleSubs.imu ∧ 0 < sampleSubs.mag ∧ 0 < sampleSubs.rpy
    ∧ (publishMsgs sampleLayout sampleRegisters sampleSubs false false).imu.map
        ImuMsg.angular_velocity = some (2, 1, -3)
    ∧ (publishMsgs sampleLayout sampleRegisters sampleSubs false false).mag
        = some (8, 7, -9)
    ∧ (publishMsgs sampleLayout sampleRegisters sampleSubs false false).rpy
        = some (3, 2, -4) :=
  ⟨by decide, by decide, by decide,
    ((C9_vector_remap.1 sampleLayout sampleRegisters sampleSubs false false
      (by decide)).1).trans (by decide),
    (C9_vector_remap.2.1 sampleLayout sampleRegisters sampleSubs false false
      (by decide)).trans (by decide),
    (C9_vector_remap.2.2.1 sampleLayout sampleRegisters sampleSubs false false
      (by decide)).trans (by decide)⟩

/-- C6: nothing is ever emitted on the dilution-of-precision channel, for
every layout, snapshot, subscriber count and parameter setting: the source
constructs the message (gpsDopMsgBuilt) but its block lacks the publish
call every sibling block has. -/
theorem C6_dop_never_published :
    ∀ (L : GpsStatusLayout) (r : Registers) (s : Subs) (ge op : Bool),
      (publishMsgs L r s ge op).gps_dop = none := by
  intro L r s ge op
  rfl

/-- C10: in a reset request, once an earlier flagged command fails to be
acknowledged, no later flagged command of the same request is issued. -/
theorem C10_reset_stops_on_first_failure :
    ∀ (ack : RCmd → Bool) (zg re mr ar : Bool) (i j : RCmd),
      rIndex i < rIndex j →
      flaggedCmd ⟨zg, re, mr, ar⟩ i = true →
      flaggedCmd ⟨zg, re, mr, ar⟩ j = true →
      ack i = false →
      j ∉ (handleResetService ack ⟨zg, re, mr, ar⟩).trace := by
  decide

/-- C10 witness: with zero-gyros and reset-EKF both flagged and no
acknowledgment received, the reset-EKF command is never issued. -/
theorem C10_reset_stops_on_first_failure_witness :
    rIndex RCmd.zeroGyros < rIndex RCmd.resetEkf
    ∧ flaggedCmd ⟨true, true, false, false⟩ RCmd.zeroGyros = true
    ∧ flaggedCmd ⟨true, true, false, false⟩ RCmd.resetEkf = true
    ∧ RCmd.resetEkf ∉ (handleResetService (fun _ => false) ⟨true, true, false, false⟩).trace :=
  ⟨by decide, by decide, by decide,
    C10_reset_stops_on_first_failure (fun _ => false) true true false false
      RCmd.zeroGyros RCmd.resetEkf (by decide) (by decide) (by decide) rfl⟩

/-- C1: the claim states that a present vector step continues on a received
acknowledgment and aborts on a missing one; the source does the opposite.
With the magnetic- and accelerometer-reference groups present: when every
acknowledgment is received the run aborts at the first vector write and
the second is never issued, and when both vector acknowledgments are
missing the run completes normally with both writes issued. -/
theorem C1_vector_step_ack_polarity_bug :
    ((configureSensor pVectors ackTrue).isErr = true
      ∧ (configureSensor pVectors ackTrue).trace
          = [COp.writeComm, COp.writeMisc, COp.cmdZeroGyros, COp.writeMagRef]
      ∧ COp.writeAccelRef ∉ (configureSensor pVectors ackTrue).trace)
    ∧ ((configureSensor pVectors ackVecFail).isErr = false
      ∧ (configureSensor pVectors ackVecFail).trace
          = [COp.writeComm, COp.writeMisc, COp.cmdZeroGyros, COp.writeMagRef,
             COp.writeAccelRef]) := by
  decide

/-- C2 counterexample: with only zero-gyros flagged and its acknowledgment
missing, the dispatcher run aborts instead of returning a boolean, the
serial transport is closed and the session does not remain in Streaming,
contradicting the claim that a command failure does not change session
state. -/
theorem C2_command_failure_session_cex :
    (handleResetService (fun _ => false) ⟨true, false, false, false⟩).isErr = true
    ∧ (processResetDuringStreaming (fun _ => false) ⟨true, false, false, false⟩).serialClosed
        = true
    ∧ (processResetDuringStreaming (fun _ => false) ⟨true, false, false, false⟩).remainsStreaming
        = false := by
  decide

/-- C2 amended: a failed acknowledgment on any flagged command of a
ResetRequest raises an error that propagates past the dispatcher to the
session loop, which closes the transport and schedules a reconnect; the
session does not remain in Streaming. -/
theorem C2_command_failure_closes_session :
    ∀ (ack : RCmd → Bool) (req : ResetRequest),
      (∃ c, flaggedCmd req c = true ∧ ack c = false) →
      processResetDuringStreaming ack req = ⟨true, true, false⟩ := by
  decide

/-- C2 amended witness: instantiated at a request flagging only zero-gyros
with its acknowledgment missing. -/
theorem C2_command_failure_closes_session_witness :
    (flaggedCmd ⟨true, false, false, false⟩ RCmd.zeroGyros = true
      ∧ (fun _ : RCmd => false) RCmd.zeroGyros = false)
    ∧ processResetDuringStreaming (fun _ => false) ⟨true, false, false, false⟩
        = ⟨true, true, false⟩ :=
  ⟨⟨rfl, rfl⟩,
    C2_command_failure_closes_session (fun _ => false) ⟨true, false, false, false⟩
      ⟨RCmd.zeroGyros, rfl, rfl⟩⟩

/-- C3: the claim states that with GPS enabled and all six vector groups
present the sequence issues exactly 9 operations and stops at the first
failure; the source aborts at the first vector write when every
acknowledgment is received (4 operations, not 9), and a failed vector
acknowledgment does not stop the following operation from being issued. -/
theorem C3_config_sequence_bug :
    ((configureSensor pAllGps ackTrue).isErr = true
      ∧ (configureSensor pAllGps ackTrue).trace
          = [COp.writeComm, COp.writeMisc, COp.cmdZeroGyros, COp.writeMagRef]
      ∧ ¬(configureSensor pAllGps ackTrue).trace.length = 9)
    ∧ (ackMagRefFail COp.writeMagRef = false
      ∧ COp.writeAccelRef ∈ (configureSensor pAllGps ackMagRefFail).trace) := by
  decide

/-- C4 counterexample: with no optional parameter set and GPS disabled the
sequence does not issue zero commands: the zero-gyros parameter defaults
to true, so one command is issued after the two register writes. -/
theorem C4_zero_commands_cex :
    (configureSensor defaultConfigParams ackTrue).trace
        = [COp.writeComm, COp.writeMisc, COp.cmdZeroGyros]
    ∧ (configureSensor defaultConfigParams ackTrue).isErr = false
    ∧ ¬((configureSensor defaultConfigParams ackTrue).trace.filter COp.isCommand).length
        = 0 := by
  decide

/-- C4 amended: with no optional parameter set and GPS disabled, the
sequence issues exactly two register writes (communication, misc-config)
and one command (zero-gyros, whose parameter defaults to true); zero
commands are issued only when zero-gyros is explicitly set to false. -/
theorem C4_two_writes_one_command :
    ((configureSensor defaultConfigParams ackTrue).trace.filter COp.isWrite)
        = [COp.writeComm, COp.writeMisc]
    ∧ ((configureSensor defaultConfigParams ackTrue).trace.filter COp.isCommand)
        = [COp.cmdZeroGyros]
    ∧ (configureSensor { defaultConfigParams with zero_gyros := false } ackTrue).trace
        = [COp.writeComm, COp.writeMisc] := by
  decide

/-- C5 counterexample: the sensor-baud field of the communication bitmask
is built from the literal 115200, not from the configured baud parameter
(which buildCommReg does not even receive): with the operator-configured
baud 9600 the field holds code 5 while the code of 9600 is 0. -/
theorem C5_sensor_baud_cex :
    buildCommReg 9600 false = Except.ok ⟨5, 0, false⟩
    ∧ baudValueToBitSetting 9600 = Except.ok 0
    ∧ ¬((5 : Nat) = 0) := by
  refine ⟨rfl, rfl, by decide⟩

/-- C5 amended: for every GPS baud parameter and GPS enable setting, the
sensor-baud field of the communication bitmask holds the fixed code 5 (the
code of 115200), regardless of the configured serial baud rate. -/
theorem C5_sensor_baud_fixed_115200 :
    ∀ (gps_baud : Int) (gps_enable : Bool) (c : CommRegContrib),
      buildCommReg gps_baud gps_enable = Except.ok c → c.sensorBaudField = 5 := by
  intro gb ge c h
  simp only [buildCommReg, bvbs_115200] at h
  split at h
  · exact absurd h (by simp)
  · injection h with h2
    rw [← h2]

/-- C5 amended witness: instantiated at GPS baud 9600 with GPS enabled. -/
theorem C5_sensor_baud_fixed_115200_witness :
    buildCommReg 9600 true = Except.ok ⟨5, 0, true⟩
    ∧ CommRegContrib.sensorBaudField ⟨5, 0, true⟩ = 5 :=
  ⟨rfl, C5_sensor_baud_fixed_115200 9600 true ⟨5, 0, true⟩ rfl⟩

end Um6
